import Mathlib

set_option maxRecDepth 8000

/-!
Shallow embedding of the canned-response matching engine of the
`aberdeenhackathon` chat widget.

Sources embedded here:
- `src/src/App.tsx` : the `ChatbotComponent`, in particular `localHiddenPrompts`
  (the Tier 1 rules), `sendMessage` (guard, user-turn append, Tier 1 loop,
  Tier 2 loop, duplicate suppression, completion fallback) and the
  `initialQuestion` effect (thread start).
- `src/src/cannedResponses.ts` : the `test` function generated for each raw
  JSON rule.
- `src/src/cannedResponses.json` : the shipped Tier 2 rule list.

Strings are modelled by Lean `String`; JavaScript `toLowerCase` /
`String.prototype.includes` / `trim` are modelled over `List Char`
(`Char.toLower`, substring containment, whitespace stripping), which agrees
with JavaScript on the ASCII texts the rule store contains.  The remote
completion call is the one external effect: its outcome (transport failure,
or a success payload with or without the expected text field) is passed to
`sendMessage` as an explicit `CollabResult` value.
-/

namespace AskAnnie

/-- One conversation turn, `{ role: string; text: string }` in `App.tsx`. -/
structure Turn where
  role : String
  text : String
deriving DecidableEq, Repr

/-- The `keywords` record of a raw rule in `cannedResponses.json` /
`cannedResponses.ts` (`all?`, `any?`, `alwaysMatch?`, all optional). -/
structure Keywords where
  all : Option (List String) := none
  any : Option (List String) := none
  alwaysMatch : Option Bool := none
deriving DecidableEq, Repr

/-- The `keywords` record of a `LocalCannedRule` in `App.tsx`
(only `all?` and `any?` exist on this type). -/
structure LocalKeywords where
  all : Option (List String) := none
  any : Option (List String) := none
deriving DecidableEq, Repr

/-- `LocalCannedRule` from `App.tsx`: a Tier 1 rule. -/
structure LocalCannedRule where
  keywords : LocalKeywords
  response : String
deriving DecidableEq, Repr

/-- `JsonCannedResponse` from `cannedResponses.ts`: a raw Tier 2 rule record. -/
structure JsonCannedResponse where
  keywords : Keywords
  response : String
  description : Option String := none
deriving DecidableEq, Repr

/-- `beginsWith needle hay` is true when `needle` is a prefix of `hay`. -/
def beginsWith : List Char → List Char → Bool
  | [], _ => true
  | _ :: _, [] => false
  | a :: as, b :: bs => a == b && beginsWith as bs

/-- `charListIncludes hay needle`: JavaScript `hay.includes(needle)`,
substring containment on character lists. -/
def charListIncludes : List Char → List Char → Bool
  | [], needle => needle.isEmpty
  | c :: rest, needle => beginsWith needle (c :: rest) || charListIncludes rest needle

/-- JavaScript `s.toLowerCase()`, as a character list. -/
def jsLowerData (s : String) : List Char :=
  s.data.map Char.toLower

/-- JavaScript `s.trim()`: strip leading and trailing whitespace. -/
def jsTrim (s : String) : String :=
  ⟨((s.data.dropWhile Char.isWhitespace).reverse.dropWhile Char.isWhitespace).reverse⟩

/-- JavaScript `q || alt` for an optional string `q`:
`undefined` and the empty string are falsy. -/
def jsOrElse : Option String → String → String
  | some q, alt => if q = "" then alt else q
  | none, alt => alt

/-- JavaScript truthiness of the optional `questionToSend` argument. -/
def jsTruthy : Option String → Bool
  | some q => !(q == "")
  | none => false

/-- Tier 1 matching, from the `localHiddenPrompts` loop in `sendMessage`
(`App.tsx`): the `all` and `any` keyword lists are concatenated into
`combinedKeywords` and a single disjunctive (`some`) containment check is
made against the lower-cased message. -/
def localRuleMatches (lowerMessageContent : List Char) (rule : LocalCannedRule) : Bool :=
  let combinedKeywords := rule.keywords.all.getD [] ++ rule.keywords.any.getD []
  combinedKeywords.any (fun keyword => charListIncludes lowerMessageContent (jsLowerData keyword))

/-- The `test` closure built for each raw rule in `cannedResponses.ts`:
`alwaysMatch` rules match everything; otherwise a non-empty `all` list
matches when every keyword is contained, and failing that a non-empty `any`
list matches when at least one keyword is contained. -/
def testRule (rawRule : JsonCannedResponse) (input : String) : Bool :=
  let lowerInput := jsLowerData input
  if rawRule.keywords.alwaysMatch.getD false then
    true
  else if (rawRule.keywords.all.getD []).length > 0 &&
      (rawRule.keywords.all.getD []).all
        (fun keyword => charListIncludes lowerInput (jsLowerData keyword)) then
    true
  else if (rawRule.keywords.any.getD []).length > 0 &&
      (rawRule.keywords.any.getD []).any
        (fun keyword => charListIncludes lowerInput (jsLowerData keyword)) then
    true
  else
    false

/-- Duplicate-suppressing append of a model turn, from the
`setChatHistory` updater used in both tier loops of `sendMessage`: if the
last history entry is already a model turn with the same text, the history
is returned unchanged; otherwise `{ role: model, text: response }` is
appended. -/
def appendModelTurn (response : String) (prevHistory : List Turn) : List Turn :=
  match prevHistory.getLast? with
  | some lastEntry =>
      if lastEntry.text = response ∧ lastEntry.role = "model" then prevHistory
      else prevHistory ++ [{ role := "model", text := response }]
  | none => prevHistory ++ [{ role := "model", text := response }]

/-- Outcome of the completion (Gemini) call, the one external collaborator. -/
inductive CollabResult where
  | failure (message : String)
  | success (text : Option String)
deriving DecidableEq, Repr

/-- The model turn appended once the completion call resolves
(`App.tsx` lines 150-168): a payload carrying the expected text field is
echoed, a structurally invalid success payload yields the parse diagnostic,
and a thrown transport / API error yields `Error: ` plus its message. -/
def completionTurn : CollabResult → Turn
  | .success (some modelResponseText) => { role := "model", text := modelResponseText }
  | .success none => { role := "model", text := "Error: Could not parse API response." }
  | .failure message => { role := "model", text := "Error: " ++ message }

/-- Which rule, if any, the two tier loops settle on. -/
inductive MatchOutcome where
  | tier1Hit (rule : LocalCannedRule)
  | tier2Hit (rule : JsonCannedResponse)
  | noRule
deriving DecidableEq, Repr

/-- How a call to `sendMessage` ends. -/
inductive Resolution where
  | guardReject
  | tier1Hit (rule : LocalCannedRule)
  | tier2Hit (rule : JsonCannedResponse)
  | completionCall
deriving DecidableEq, Repr

/-- The two tier loops of `sendMessage`: the first Tier 1 rule whose
combined keyword list hits wins; otherwise the first Tier 2 rule whose
`test` accepts the message wins; otherwise no rule fires. -/
def resolve (tier1 : List LocalCannedRule) (tier2 : List JsonCannedResponse)
    (messageContent : String) : MatchOutcome :=
  match tier1.find? (localRuleMatches (jsLowerData messageContent)) with
  | some rule => .tier1Hit rule
  | none =>
      match tier2.find? (fun rule => testRule rule messageContent) with
      | some rule => .tier2Hit rule
      | none => .noRule

/-- The component state `sendMessage` reads and writes:
`chatHistory`, `userInput` and `isLoading`. -/
structure ChatState where
  chatHistory : List Turn
  userInput : String
  isLoading : Bool
deriving DecidableEq, Repr

/-- `const messageContent = questionToSend || userInput.trim()`. -/
def messageContentOf (st : ChatState) (questionToSend : Option String) : String :=
  jsOrElse questionToSend (jsTrim st.userInput)

/-- History after the optional user-turn append: a typed submission
(`!questionToSend`) appends `{ user, messageContent }`, a programmatic one
does not. -/
def historyAfterUserTurn (st : ChatState) (questionToSend : Option String) : List Turn :=
  if jsTruthy questionToSend then st.chatHistory
  else st.chatHistory ++ [{ role := "user", text := messageContentOf st questionToSend }]

/-- `userInput` after the optional clear (`setUserInput('')` on the typed path). -/
def inputAfterUserTurn (st : ChatState) (questionToSend : Option String) : String :=
  if jsTruthy questionToSend then st.userInput else ""

/-- `sendMessage` from `App.tsx`, as a pure state transformer.  The guard
rejects an empty `messageContent` or a busy component; otherwise the user
turn is conditionally appended, the tiers are resolved, and either a
(suppression-checked) rule response or the completion collaborator's turn is
appended.  `isLoading` is `false` again on every exit path (the `finally`
block / the resets before each early `return`). -/
def sendMessage (tier1 : List LocalCannedRule) (tier2 : List JsonCannedResponse)
    (collab : CollabResult) (st : ChatState) (questionToSend : Option String) :
    ChatState × Resolution :=
  if messageContentOf st questionToSend = "" ∨ st.isLoading = true then
    (st, .guardReject)
  else
    match resolve tier1 tier2 (messageContentOf st questionToSend) with
    | .tier1Hit rule =>
        ({ chatHistory := appendModelTurn rule.response (historyAfterUserTurn st questionToSend),
           userInput := inputAfterUserTurn st questionToSend,
           isLoading := false }, .tier1Hit rule)
    | .tier2Hit rule =>
        ({ chatHistory := appendModelTurn rule.response (historyAfterUserTurn st questionToSend),
           userInput := inputAfterUserTurn st questionToSend,
           isLoading := false }, .tier2Hit rule)
    | .noRule =>
        ({ chatHistory := historyAfterUserTurn st questionToSend ++ [completionTurn collab],
           userInput := inputAfterUserTurn st questionToSend,
           isLoading := false }, .completionCall)

/-- `personalizedWelcomeMessage` from `ChatbotComponent` in `App.tsx`. -/
def welcomeMessage (userName : String) : String :=
  "Hello " ++ userName ++
    "! I\x27m Annie, your expert AI assistant for B2B financial services. How can I help you today with information on our platform\x27s solutions?"

/-- The `initialQuestion` effect of `ChatbotComponent` (`App.tsx` lines
31-45): the history is replaced wholesale by the welcome turn plus the
question as a user turn, then `sendMessage(initialQuestion)` runs on the
fresh component state (`userInput` empty, `isLoading` false). -/
def startThread (tier1 : List LocalCannedRule) (tier2 : List JsonCannedResponse)
    (collab : CollabResult) (userName question : String) : ChatState × Resolution :=
  sendMessage tier1 tier2 collab
    { chatHistory := [{ role := "model", text := welcomeMessage userName },
                      { role := "user", text := question }],
      userInput := "",
      isLoading := false }
    (some question)

/-- The response text a `MatchOutcome` carries, if a rule fired. -/
def hitResponse? : MatchOutcome → Option String
  | .tier1Hit rule => some rule.response
  | .tier2Hit rule => some rule.response
  | .noRule => none

/-- The shipped Tier 1 rule list, `localHiddenPrompts` in `App.tsx`. -/
def localHiddenPrompts : List LocalCannedRule :=
  [ { keywords := { any := some ["6 months", "past six months", "half year", "last six months",
        "recent performance", "recent", "short term return"] },
      response := "Your investments have shown a **+8.5% return** over the past 6 months (as of June 26, 2025). This includes a strong performance from your tech sector holdings." },
    { keywords := { any := some ["investments", "investment", "inception", "performed",
        "performance", "return", "since", "initial", "original investment", "start date",
        "commencement", "from start", "since day one", "total return", "overall return",
        "portfolio return"] },
      response := "Since inception (your initial investment date of January 15, 2020), your overall portfolio has achieved a **+27.3% return**." },
    { keywords := { any := some ["fund charge", "percentage", "aggregated", "fees", "cost"] },
      response := "Your current aggregated fund charge percentage across all your holdings is **0.75%** per annum. This includes all management fees and operational costs." },
    { keywords := { any := some ["subscription to isa", "subscription", "new", "top up",
        "pay into", "add money"] },
      response := "Yes, you can make a new subscription to your ISA. You have **£5,000** remaining of your **£20,000** allowance for the current tax year (which ends April 5, 2026). You can initiate a new subscription via the \x27Investments\x27 section of your online portal." } ]

/-- The shipped Tier 2 rule list, the thirteen records of
`cannedResponses.json` in file order. -/
def cannedResponses : List JsonCannedResponse :=
  [ { keywords := { any := some ["How much of my ISA allowance have I used this tax year?",
        "ISA Allowance used", "ISA used"] },
      response := "As of today, June 26, 2025, you have used **£15,000** of your **£20,000** ISA allowance for the current tax year (which runs from April 6, 2025, to April 5, 2026).",
      description := some "ISA allowance used this tax year" },
    { keywords := { any := some ["How much of my ISA allowance is remaining for the current tax year?",
        "ISA Allowance remaining", "ISA remaining"] },
      response := "For the current tax year (April 6, 2025, to April 5, 2026), you have **£5,000** remaining of your **£20,000** ISA allowance.",
      description := some "Remaining ISA allowance for the current tax year" },
    { keywords := { all := some ["Which of my funds held are ESG funds?"] },
      response := "Based on your current holdings, the following funds are identified as ESG (Environmental, Social, and Governance) funds: \n\n* **Green Future Equity Fund**\n* **Sustainable Innovation Growth**\n* **Ethical Impact Bond Portfolio**\n\nThese funds consider environmental, social, and governance factors in their investment strategies.",
      description := some "List of user\x27s ESG funds" },
    { keywords := { any := some ["password", "login", "locked out"] },
      response := "If you\x27re having trouble logging in or need to reset your password, please visit our dedicated **password recovery page** at [#](#). For your security, Annie can\x27t directly handle password resets or provide account access. You\x27ll need to go through the secure recovery process there.",
      description := some "Keywords: \x27password\x27 OR \x27login\x27 OR \x27locked out\x27" },
    { keywords := { any := some ["pricing", "cost", "fees"] },
      response := "Our pricing structures are tailored to the specific B2B financial service you need and your business\x27s scale. For a comprehensive breakdown, please explore our **\x27Solutions & Pricing\x27 section** at [#](#). For a personalized quote or to discuss enterprise solutions, feel free to contact our sales team directly at **sales@examplecorp.com**.",
      description := some "Keywords: \x27pricing\x27 OR \x27cost\x27 OR \x27fees\x27" },
    { keywords := { any := some ["features", "capabilities", "what does it do"] },
      response := "Our platform offers a robust suite of features designed to revolutionize your financial operations. Our platform includes advanced tools for **real-time payment processing**, **dynamic liquidity management**, **cross-border FX solutions**, and **integrated treasury management**. We also provide comprehensive reporting and analytics to give you full visibility. To see these in action, you can explore our \x27Platform Capabilities\x27 section at [#](#).",
      description := some "Keywords: \x27features\x27 OR \x27capabilities\x27 OR \x27what does it do\x27" },
    { keywords := { any := some ["support", "help", "contact us"] },
      response := "Our dedicated support team is always ready to assist you. For technical issues, FAQs, and detailed guides, please visit our comprehensive **Help Center** at [#](#). You can also submit a support ticket directly through the portal. For urgent matters, please call our UK support line at **0800 746 3778 (0800 FINNERS)**, available during business hours.",
      description := some "Keywords: \x27support\x27 OR \x27help\x27 OR \x27contact us\x27" },
    { keywords := { any := some ["hours", "open", "close"] },
      response := "Our customer support team is available **Monday to Friday, from 9:00 AM to 5:00 PM GMT**. Our online portal, self-service resources, and API access are all available 24/7 for your convenience, allowing you to manage your financial operations at any time.",
      description := some "Keywords: \x27hours\x27 OR \x27open\x27 OR \x27close\x27" },
    { keywords := { any := some ["hello", "hi", "hey", "how are you", "how\x27s it going",
        "what\x27s up", "how you doing", "you doing well", "good day", "greetings"] },
      response := "Hey there! I\x27m doing great, thanks for asking! I\x27m here and ready to help with any of your B2B financial service needs. How can I assist you today?",
      description := some "Broad greeting" },
    { keywords := { any := some ["you there", "are you there", "you alive", "you listening"] },
      response := "Yep, I\x27m here! Always ready to help. What can I do for you?",
      description := some "Checking for presence" },
    { keywords := { any := some ["nice to meet you", "good to meet you", "pleased to meet you"] },
      response := "Nice to meet you too! I\x27m Annie, your AI assistant for B2B financial services. Let me know how I can help.",
      description := some "Initial introductions" },
    { keywords := { any := some ["thank you", "thanks", "cheers", "appreciate it"] },
      response := "You\x27re most welcome! Glad I could assist. Feel free to ask if anything else comes up!",
      description := some "Expressing gratitude" },
    { keywords := { alwaysMatch := some true },
      response := "I\x27m not sure how to help with that. Could you please rephrase your question or ask about a different topic related to B2B financial services?",
      description := some "Fallback response for unmatched queries" } ]

/-! ### General lemmas about the embedded operations -/

theorem beginsWith_prefix_iff : ∀ needle hay : List Char, beginsWith needle hay = true ↔ needle <+: hay
  | [], hay => by simp [beginsWith]
  | a :: as, [] => by simp [beginsWith]
  | a :: as, b :: bs => by
      rw [beginsWith, List.cons_prefix_cons, Bool.and_eq_true, beq_iff_eq,
        beginsWith_prefix_iff as bs]

theorem charListIncludes_infix_iff : ∀ hay needle : List Char,
    charListIncludes hay needle = true ↔ needle <:+: hay
  | [], needle => by simp [charListIncludes]
  | c :: rest, needle => by
      rw [charListIncludes, Bool.or_eq_true, beginsWith_prefix_iff,
        charListIncludes_infix_iff rest needle, List.infix_cons_iff]

theorem mem_of_getLastSome {α : Type} {l : List α} {a : α} (h : l.getLast? = some a) : a ∈ l := by
  rcases List.mem_getLast?_eq_getLast (Option.mem_def.mpr h) with ⟨hne, rfl⟩
  exact List.getLast_mem hne

theorem find?_append_first {α : Type} (p : α → Bool) (pre : List α) (rule : α) (post : List α)
    (hpre : ∀ x ∈ pre, p x = false) (hrule : p rule = true) :
    (pre ++ rule :: post).find? p = some rule := by
  induction pre with
  | nil => simpa using List.find?_cons_of_pos post hrule
  | cons a t ih =>
      have ha : ¬ p a = true := by simp [hpre a (by simp)]
      rw [List.cons_append, List.find?_cons_of_neg _ ha]
      exact ih (fun x hx => hpre x (by simp [hx]))

/-- An `alwaysMatch` rule's `test` accepts every input. -/
theorem testRule_of_alwaysMatch (rule : JsonCannedResponse) (input : String)
    (h : rule.keywords.alwaysMatch.getD false = true) : testRule rule input = true := by
  unfold testRule
  rw [h]
  simp

/-- `appendModelTurn` leaves the matched response as the last history entry. -/
theorem appendModelTurn_getLast (response : String) (history : List Turn) :
    (appendModelTurn response history).getLast? = some { role := "model", text := response } := by
  unfold appendModelTurn
  split
  · rename_i lastEntry heq
    split
    · rename_i hc
      rw [heq]
      cases lastEntry
      simp_all
    · simp
  · simp

/-- The duplicate suppression: appending a response that already closes the
history is a no-op. -/
theorem appendModelTurn_suppressed (response : String) (history : List Turn)
    (h : history.getLast? = some { role := "model", text := response }) :
    appendModelTurn response history = history := by
  unfold appendModelTurn
  rw [h]
  simp

theorem appendModelTurn_idem (response : String) (history : List Turn) :
    appendModelTurn response (appendModelTurn response history) = appendModelTurn response history :=
  appendModelTurn_suppressed response _ (appendModelTurn_getLast response history)

/-- `sendMessage` on the programmatic path (`questionToSend` a non-empty
string): no user turn is appended, the input buffer is untouched, and the
message resolved is the question itself. -/
theorem sendMessage_programmatic (tier1 : List LocalCannedRule)
    (tier2 : List JsonCannedResponse) (collab : CollabResult) (st : ChatState) (q : String)
    (hq : q ≠ "") (hload : st.isLoading = false) :
    sendMessage tier1 tier2 collab st (some q) =
      match resolve tier1 tier2 q with
      | .tier1Hit rule =>
          ({ chatHistory := appendModelTurn rule.response st.chatHistory,
             userInput := st.userInput, isLoading := false }, .tier1Hit rule)
      | .tier2Hit rule =>
          ({ chatHistory := appendModelTurn rule.response st.chatHistory,
             userInput := st.userInput, isLoading := false }, .tier2Hit rule)
      | .noRule =>
          ({ chatHistory := st.chatHistory ++ [completionTurn collab],
             userInput := st.userInput, isLoading := false }, .completionCall) := by
  have hmc : messageContentOf st (some q) = q := by
    simp [messageContentOf, jsOrElse, hq]
  have htr : jsTruthy (some q) = true := by
    simp [jsTruthy, hq]
  have hhist : historyAfterUserTurn st (some q) = st.chatHistory := by
    simp [historyAfterUserTurn, htr]
  have hinput : inputAfterUserTurn st (some q) = st.userInput := by
    simp [inputAfterUserTurn, htr]
  unfold sendMessage
  rw [hmc, if_neg (by simp [hq, hload]), hhist, hinput]

theorem sendMessage_programmatic_tier1 (tier1 : List LocalCannedRule)
    (tier2 : List JsonCannedResponse) (collab : CollabResult) (st : ChatState) (q : String)
    (rule : LocalCannedRule) (hq : q ≠ "") (hload : st.isLoading = false)
    (hres : resolve tier1 tier2 q = MatchOutcome.tier1Hit rule) :
    sendMessage tier1 tier2 collab st (some q) =
      ({ chatHistory := appendModelTurn rule.response st.chatHistory,
         userInput := st.userInput, isLoading := false }, Resolution.tier1Hit rule) := by
  rw [sendMessage_programmatic tier1 tier2 collab st q hq hload, hres]

theorem sendMessage_programmatic_tier2 (tier1 : List LocalCannedRule)
    (tier2 : List JsonCannedResponse) (collab : CollabResult) (st : ChatState) (q : String)
    (rule : JsonCannedResponse) (hq : q ≠ "") (hload : st.isLoading = false)
    (hres : resolve tier1 tier2 q = MatchOutcome.tier2Hit rule) :
    sendMessage tier1 tier2 collab st (some q) =
      ({ chatHistory := appendModelTurn rule.response st.chatHistory,
         userInput := st.userInput, isLoading := false }, Resolution.tier2Hit rule) := by
  rw [sendMessage_programmatic tier1 tier2 collab st q hq hload, hres]

/-! ### Claim theorems -/

/-- C1: for every submitted non-empty input (guard passed) on which the Tier 1
scan settles on a rule, `sendMessage` appends that rule's response through the
duplicate-suppressing append and ends in the Tier 1 resolution; the result is
identical for every Tier 2 rule list and every completion outcome, so neither
the Tier 2 rules nor the Completion Collaborator take part. -/
theorem tier1_hit_resolves_without_tier2_or_completion
    (tier1 : List LocalCannedRule) (tier2 tier2alt : List JsonCannedResponse)
    (collab collabAlt : CollabResult) (st : ChatState) (questionToSend : Option String)
    (rule : LocalCannedRule)
    (hmsg : messageContentOf st questionToSend ≠ "")
    (hload : st.isLoading = false)
    (hr : tier1.find? (localRuleMatches (jsLowerData (messageContentOf st questionToSend))) =
      some rule) :
    sendMessage tier1 tier2 collab st questionToSend =
      ({ chatHistory := appendModelTurn rule.response (historyAfterUserTurn st questionToSend),
         userInput := inputAfterUserTurn st questionToSend,
         isLoading := false }, Resolution.tier1Hit rule) ∧
    sendMessage tier1 tier2 collab st questionToSend =
      sendMessage tier1 tier2alt collabAlt st questionToSend ∧
    localRuleMatches (jsLowerData (messageContentOf st questionToSend)) rule = true := by
  have hguard : ¬ (messageContentOf st questionToSend = "" ∨ st.isLoading = true) := by
    simp [hmsg, hload]
  have hres : resolve tier1 tier2 (messageContentOf st questionToSend) =
      MatchOutcome.tier1Hit rule := by
    unfold resolve
    rw [hr]
  have hresAlt : resolve tier1 tier2alt (messageContentOf st questionToSend) =
      MatchOutcome.tier1Hit rule := by
    unfold resolve
    rw [hr]
  refine ⟨?_, ?_, List.find?_some hr⟩
  · unfold sendMessage
    rw [if_neg hguard, hres]
  · unfold sendMessage
    rw [if_neg hguard, hres, hresAlt, if_neg hguard]

/-- Witness for C1: the typed input `what is my recent performance?` hits the
first Tier 1 rule, and the run is independent of the Tier 2 rules and the
collaborator outcome. -/
theorem tier1_hit_resolves_witness :
    messageContentOf
        { chatHistory := [], userInput := "what is my recent performance?", isLoading := false }
        none ≠ "" ∧
    localHiddenPrompts.find?
        (localRuleMatches (jsLowerData (messageContentOf
          { chatHistory := [], userInput := "what is my recent performance?", isLoading := false }
          none))) =
      some (localHiddenPrompts.get ⟨0, by decide⟩) ∧
    sendMessage localHiddenPrompts cannedResponses (CollabResult.failure "boom")
        { chatHistory := [], userInput := "what is my recent performance?", isLoading := false }
        none =
      sendMessage localHiddenPrompts [] (CollabResult.success none)
        { chatHistory := [], userInput := "what is my recent performance?", isLoading := false }
        none :=
  ⟨by decide, by decide,
    (tier1_hit_resolves_without_tier2_or_completion localHiddenPrompts cannedResponses []
      (CollabResult.failure "boom") (CollabResult.success none)
      { chatHistory := [], userInput := "what is my recent performance?", isLoading := false }
      none (localHiddenPrompts.get ⟨0, by decide⟩) (by decide) rfl (by decide)).2.1⟩

/-- C6 amended: the guard is a silent no-op exactly as written in the code:
a submission whose effective message (`questionToSend` if truthy, otherwise the
trimmed input buffer) is empty, or one made while the component is busy,
returns the state untouched.  A typed submission with whitespace-only input is
therefore a no-op, but a programmatic `questionToSend` is only caught when it
is the empty string itself, because it bypasses trimming. -/
theorem empty_or_pending_submission_is_noop
    (tier1 : List LocalCannedRule) (tier2 : List JsonCannedResponse) (collab : CollabResult)
    (st : ChatState) (questionToSend : Option String)
    (h : messageContentOf st questionToSend = "" ∨ st.isLoading = true) :
    sendMessage tier1 tier2 collab st questionToSend = (st, Resolution.guardReject) := by
  unfold sendMessage
  rw [if_pos h]

/-- Witness for C6 amended: a whitespace-only typed input with a non-empty
history is rejected without touching the state. -/
theorem empty_or_pending_noop_witness :
    (messageContentOf
        { chatHistory := [{ role := "model", text := "w" }], userInput := "   ",
          isLoading := false } none = "" ∨
      ({ chatHistory := [{ role := "model", text := "w" }], userInput := "   ",
          isLoading := false } : ChatState).isLoading = true) ∧
    sendMessage localHiddenPrompts cannedResponses (CollabResult.failure "e")
        { chatHistory := [{ role := "model", text := "w" }], userInput := "   ",
          isLoading := false } none =
      ({ chatHistory := [{ role := "model", text := "w" }], userInput := "   ",
          isLoading := false }, Resolution.guardReject) :=
  ⟨Or.inl (by decide),
    empty_or_pending_submission_is_noop localHiddenPrompts cannedResponses
      (CollabResult.failure "e")
      { chatHistory := [{ role := "model", text := "w" }], userInput := "   ",
        isLoading := false } none (Or.inl (by decide))⟩

/-- C6 counterexample: `sendMessage` called with the whitespace-only question
`"   "` — a submission whose text is empty after trimming — is not a no-op:
`questionToSend` is never trimmed, so the guard passes and the Tier 2
`alwaysMatch` fallback appends a model turn. -/
theorem whitespace_question_bypasses_trim_guard :
    jsTrim "   " = "" ∧
    (sendMessage localHiddenPrompts cannedResponses (CollabResult.failure "e")
        { chatHistory := [], userInput := "", isLoading := false } (some "   ")).1.chatHistory ≠
      [] :=
  ⟨by decide, by decide⟩

/-- C5: whenever the Tier 2 rule list ends with an `alwaysMatch` rule (as the
shipped `cannedResponses.json` does), every submission that passes the
empty/pending guard resolves inside the tiers: the run never ends in
`completionCall`, and its result is independent of the collaborator outcome. -/
theorem trailing_always_match_precludes_completion
    (tier1 : List LocalCannedRule) (tier2 : List JsonCannedResponse)
    (collab collabAlt : CollabResult) (st : ChatState) (questionToSend : Option String)
    (lastRule : JsonCannedResponse)
    (hmsg : messageContentOf st questionToSend ≠ "")
    (hload : st.isLoading = false)
    (hlast : tier2.getLast? = some lastRule)
    (halw : lastRule.keywords.alwaysMatch.getD false = true) :
    (sendMessage tier1 tier2 collab st questionToSend).2 ≠ Resolution.completionCall ∧
    sendMessage tier1 tier2 collab st questionToSend =
      sendMessage tier1 tier2 collabAlt st questionToSend := by
  have hguard : ¬ (messageContentOf st questionToSend = "" ∨ st.isLoading = true) := by
    simp [hmsg, hload]
  have htest : testRule lastRule (messageContentOf st questionToSend) = true :=
    testRule_of_alwaysMatch lastRule _ halw
  have hfind : tier2.find? (fun r => testRule r (messageContentOf st questionToSend)) ≠ none := by
    intro hnone
    exact absurd htest (List.find?_eq_none.mp hnone lastRule (mem_of_getLastSome hlast))
  cases h1 : tier1.find? (localRuleMatches (jsLowerData (messageContentOf st questionToSend))) with
  | some r =>
      have hres : resolve tier1 tier2 (messageContentOf st questionToSend) =
          MatchOutcome.tier1Hit r := by
        unfold resolve
        rw [h1]
      constructor
      · unfold sendMessage
        rw [if_neg hguard, hres]
        simp
      · unfold sendMessage
        rw [if_neg hguard, hres, if_neg hguard]
  | none =>
      cases h2 : tier2.find? (fun r => testRule r (messageContentOf st questionToSend)) with
      | none => exact absurd h2 hfind
      | some r2 =>
          have hres : resolve tier1 tier2 (messageContentOf st questionToSend) =
              MatchOutcome.tier2Hit r2 := by
            unfold resolve
            rw [h1, h2]
          constructor
          · unfold sendMessage
            rw [if_neg hguard, hres]
            simp
          · unfold sendMessage
            rw [if_neg hguard, hres, if_neg hguard]

/-- Witness for C5: the unmatched input `xyzzy` resolves via the shipped
fallback rule rather than the Completion Collaborator. -/
theorem trailing_always_match_witness :
    messageContentOf { chatHistory := [], userInput := "xyzzy", isLoading := false } none ≠ "" ∧
    cannedResponses.getLast? = some (cannedResponses.get ⟨12, by decide⟩) ∧
    (cannedResponses.get ⟨12, by decide⟩).keywords.alwaysMatch.getD false = true ∧
    (sendMessage localHiddenPrompts cannedResponses (CollabResult.failure "e")
        { chatHistory := [], userInput := "xyzzy", isLoading := false } none).2 ≠
      Resolution.completionCall :=
  ⟨by decide, by decide, by decide,
    (trailing_always_match_precludes_completion localHiddenPrompts cannedResponses
      (CollabResult.failure "e") (CollabResult.success none)
      { chatHistory := [], userInput := "xyzzy", isLoading := false } none
      (cannedResponses.get ⟨12, by decide⟩) (by decide) rfl (by decide) (by decide)).1⟩

/-- C3: when no Tier 1 rule matches and the Tier 2 list splits as
`pre ++ rule :: post` with every rule of `pre` unsatisfied and `rule`
satisfied, exactly `rule` — the first satisfied rule in list order — fires,
its response is the one appended, and the rules after the hit are never
consulted: the run is identical for every tail `postAlt`.  In particular,
when two Tier 2 rules are both satisfied, the earlier one's response wins. -/
theorem tier2_first_satisfied_rule_fires
    (tier1 : List LocalCannedRule) (pre post postAlt : List JsonCannedResponse)
    (rule : JsonCannedResponse) (collab : CollabResult) (st : ChatState)
    (questionToSend : Option String)
    (hmsg : messageContentOf st questionToSend ≠ "")
    (hload : st.isLoading = false)
    (hmiss1 : tier1.find? (localRuleMatches (jsLowerData (messageContentOf st questionToSend))) =
      none)
    (hpre : ∀ r ∈ pre, testRule r (messageContentOf st questionToSend) = false)
    (hrule : testRule rule (messageContentOf st questionToSend) = true) :
    sendMessage tier1 (pre ++ rule :: post) collab st questionToSend =
      ({ chatHistory := appendModelTurn rule.response (historyAfterUserTurn st questionToSend),
         userInput := inputAfterUserTurn st questionToSend,
         isLoading := false }, Resolution.tier2Hit rule) ∧
    sendMessage tier1 (pre ++ rule :: post) collab st questionToSend =
      sendMessage tier1 (pre ++ rule :: postAlt) collab st questionToSend := by
  have hguard : ¬ (messageContentOf st questionToSend = "" ∨ st.isLoading = true) := by
    simp [hmsg, hload]
  have hfind : (pre ++ rule :: post).find?
      (fun r => testRule r (messageContentOf st questionToSend)) = some rule :=
    find?_append_first _ pre rule post hpre hrule
  have hfindAlt : (pre ++ rule :: postAlt).find?
      (fun r => testRule r (messageContentOf st questionToSend)) = some rule :=
    find?_append_first _ pre rule postAlt hpre hrule
  have hres : resolve tier1 (pre ++ rule :: post) (messageContentOf st questionToSend) =
      MatchOutcome.tier2Hit rule := by
    unfold resolve
    rw [hmiss1, hfind]
  have hresAlt : resolve tier1 (pre ++ rule :: postAlt) (messageContentOf st questionToSend) =
      MatchOutcome.tier2Hit rule := by
    unfold resolve
    rw [hmiss1, hfindAlt]
  constructor
  · unfold sendMessage
    rw [if_neg hguard, hres]
  · unfold sendMessage
    rw [if_neg hguard, hres, hresAlt, if_neg hguard]

/-- Witness for C3: `help me login` satisfies both the password rule (index 3)
and the support rule (index 6) of the shipped Tier 2 list; the earlier
password rule fires, and the rules after it are irrelevant to the run. -/
theorem tier2_first_satisfied_rule_witness :
    cannedResponses =
      cannedResponses.take 3 ++ cannedResponses.get ⟨3, by decide⟩ :: cannedResponses.drop 4 ∧
    testRule (cannedResponses.get ⟨6, by decide⟩)
        (messageContentOf
          { chatHistory := [], userInput := "help me login", isLoading := false } none) = true ∧
    (∀ r ∈ cannedResponses.take 3,
      testRule r (messageContentOf
        { chatHistory := [], userInput := "help me login", isLoading := false } none) = false) ∧
    sendMessage localHiddenPrompts
        (cannedResponses.take 3 ++ cannedResponses.get ⟨3, by decide⟩ :: cannedResponses.drop 4)
        (CollabResult.failure "e")
        { chatHistory := [], userInput := "help me login", isLoading := false } none =
      ({ chatHistory := [{ role := "user", text := "help me login" },
           { role := "model", text := (cannedResponses.get ⟨3, by decide⟩).response }],
         userInput := "",
         isLoading := false }, Resolution.tier2Hit (cannedResponses.get ⟨3, by decide⟩)) :=
  ⟨by decide, by decide, by decide, by
    have h := (tier2_first_satisfied_rule_fires localHiddenPrompts (cannedResponses.take 3)
      (cannedResponses.drop 4) [] (cannedResponses.get ⟨3, by decide⟩)
      (CollabResult.failure "e")
      { chatHistory := [], userInput := "help me login", isLoading := false } none
      (by decide) rfl (by decide) (by decide) (by decide)).1
    rw [h]
    decide⟩

/-- C4 counterexample: typing `I forgot my password` twice in a row makes the
same Tier 2 rule fire both times, yet the response is appended twice — the
interposed user turn defeats the last-entry suppression check, so the
history's two model turns are textually identical. -/
theorem typed_resubmission_duplicates_model_turn :
    ((sendMessage localHiddenPrompts cannedResponses (CollabResult.failure "e")
        { chatHistory := (sendMessage localHiddenPrompts cannedResponses (CollabResult.failure "e")
              { chatHistory := [], userInput := "I forgot my password", isLoading := false }
              none).1.chatHistory,
          userInput := "I forgot my password", isLoading := false }
        none).1.chatHistory.filter (fun t => t.role == "model")).map Turn.text =
      [(cannedResponses.get ⟨3, by decide⟩).response,
        (cannedResponses.get ⟨3, by decide⟩).response] := by
  decide

/-- C4 amended: the suppression in the code compares the candidate response
only against the immediately preceding history entry.  Consequently a repeated
programmatic submission (prompt click / seeded question, which appends no user
turn) appends the rule's response only once: the second run leaves the history
unchanged.  (The counterexample shows the typed path instead appends the
response again, because the fresh user turn sits between the two model
turns.) -/
theorem adjacent_duplicate_model_turn_suppressed
    (tier1 : List LocalCannedRule) (tier2 : List JsonCannedResponse)
    (collab collabAlt : CollabResult) (st : ChatState) (question response : String)
    (hq : question ≠ "") (hload : st.isLoading = false)
    (hres : hitResponse? (resolve tier1 tier2 question) = some response) :
    (sendMessage tier1 tier2 collab st (some question)).1.chatHistory =
      appendModelTurn response st.chatHistory ∧
    (sendMessage tier1 tier2 collabAlt
        { chatHistory := (sendMessage tier1 tier2 collab st (some question)).1.chatHistory,
          userInput := (sendMessage tier1 tier2 collab st (some question)).1.userInput,
          isLoading := false } (some question)).1.chatHistory =
      (sendMessage tier1 tier2 collab st (some question)).1.chatHistory := by
  cases hmo : resolve tier1 tier2 question with
  | tier1Hit r =>
      have hr : r.response = response := by
        rw [hmo] at hres
        simpa [hitResponse?] using hres
      have hhist : (sendMessage tier1 tier2 collab st (some question)).1.chatHistory =
          appendModelTurn response st.chatHistory := by
        rw [sendMessage_programmatic_tier1 tier1 tier2 collab st question r hq hload hmo, hr]
      refine ⟨hhist, ?_⟩
      rw [sendMessage_programmatic_tier1 tier1 tier2 collabAlt
        { chatHistory := (sendMessage tier1 tier2 collab st (some question)).1.chatHistory,
          userInput := (sendMessage tier1 tier2 collab st (some question)).1.userInput,
          isLoading := false } question r hq rfl hmo]
      show appendModelTurn r.response
          (sendMessage tier1 tier2 collab st (some question)).1.chatHistory =
        (sendMessage tier1 tier2 collab st (some question)).1.chatHistory
      rw [hr, hhist]
      exact appendModelTurn_idem response st.chatHistory
  | tier2Hit r =>
      have hr : r.response = response := by
        rw [hmo] at hres
        simpa [hitResponse?] using hres
      have hhist : (sendMessage tier1 tier2 collab st (some question)).1.chatHistory =
          appendModelTurn response st.chatHistory := by
        rw [sendMessage_programmatic_tier2 tier1 tier2 collab st question r hq hload hmo, hr]
      refine ⟨hhist, ?_⟩
      rw [sendMessage_programmatic_tier2 tier1 tier2 collabAlt
        { chatHistory := (sendMessage tier1 tier2 collab st (some question)).1.chatHistory,
          userInput := (sendMessage tier1 tier2 collab st (some question)).1.userInput,
          isLoading := false } question r hq rfl hmo]
      show appendModelTurn r.response
          (sendMessage tier1 tier2 collab st (some question)).1.chatHistory =
        (sendMessage tier1 tier2 collab st (some question)).1.chatHistory
      rw [hr, hhist]
      exact appendModelTurn_idem response st.chatHistory
  | noRule =>
      rw [hmo] at hres
      simp [hitResponse?] at hres

/-- Witness for C4 amended: clicking the `Password` prompt twice appends the
password response once; the second run leaves the history unchanged. -/
theorem adjacent_duplicate_suppressed_witness :
    ("Password" : String) ≠ "" ∧
    hitResponse? (resolve localHiddenPrompts cannedResponses "Password") =
      some (cannedResponses.get ⟨3, by decide⟩).response ∧
    (sendMessage localHiddenPrompts cannedResponses (CollabResult.success none)
        { chatHistory := (sendMessage localHiddenPrompts cannedResponses (CollabResult.failure "e")
              { chatHistory := [], userInput := "", isLoading := false } (some "Password")).1.chatHistory,
          userInput := (sendMessage localHiddenPrompts cannedResponses (CollabResult.failure "e")
              { chatHistory := [], userInput := "", isLoading := false } (some "Password")).1.userInput,
          isLoading := false } (some "Password")).1.chatHistory =
      (sendMessage localHiddenPrompts cannedResponses (CollabResult.failure "e")
          { chatHistory := [], userInput := "", isLoading := false } (some "Password")).1.chatHistory :=
  ⟨by decide, by decide,
    (adjacent_duplicate_model_turn_suppressed localHiddenPrompts cannedResponses
      (CollabResult.failure "e") (CollabResult.success none)
      { chatHistory := [], userInput := "", isLoading := false } "Password"
      (cannedResponses.get ⟨3, by decide⟩).response (by decide) rfl (by decide)).2⟩

/-- C7: `startThread` replaces the history wholesale with the welcome turn and
the question as the sole user turn, then resolves the question without
re-appending it; when the question misses Tier 1 and a Tier 2 rule fires, the
resulting history is exactly welcome / question / matched response, ending in
the Tier 2 resolution, independently of the collaborator outcome. -/
theorem startThread_resolves_seeded_question
    (tier1 : List LocalCannedRule) (tier2 : List JsonCannedResponse)
    (collab collabAlt : CollabResult) (userName question : String) (rule : JsonCannedResponse)
    (hq : question ≠ "")
    (hmiss1 : tier1.find? (localRuleMatches (jsLowerData question)) = none)
    (hhit2 : tier2.find? (fun r => testRule r question) = some rule) :
    startThread tier1 tier2 collab userName question =
      ({ chatHistory := [{ role := "model", text := welcomeMessage userName },
                         { role := "user", text := question },
                         { role := "model", text := rule.response }],
         userInput := "", isLoading := false }, Resolution.tier2Hit rule) ∧
    startThread tier1 tier2 collab userName question =
      startThread tier1 tier2 collabAlt userName question := by
  have hres : resolve tier1 tier2 question = MatchOutcome.tier2Hit rule := by
    unfold resolve
    rw [hmiss1, hhit2]
  have happ : appendModelTurn rule.response
      ([{ role := "model", text := welcomeMessage userName },
        { role := "user", text := question }] : List Turn) =
      [{ role := "model", text := welcomeMessage userName },
       { role := "user", text := question },
       { role := "model", text := rule.response }] := by
    unfold appendModelTurn
    rw [show ([{ role := "model", text := welcomeMessage userName },
        { role := "user", text := question }] : List Turn).getLast? =
        some { role := "user", text := question } from rfl]
    simp
  have h1 : startThread tier1 tier2 collab userName question =
      ({ chatHistory := [{ role := "model", text := welcomeMessage userName },
                         { role := "user", text := question },
                         { role := "model", text := rule.response }],
         userInput := "", isLoading := false }, Resolution.tier2Hit rule) := by
    unfold startThread
    rw [sendMessage_programmatic_tier2 tier1 tier2 collab _ question rule hq rfl hres]
    exact congrArg
      (fun hist => (({ chatHistory := hist, userInput := "", isLoading := false } : ChatState),
        Resolution.tier2Hit rule)) happ
  have h2 : startThread tier1 tier2 collabAlt userName question =
      ({ chatHistory := [{ role := "model", text := welcomeMessage userName },
                         { role := "user", text := question },
                         { role := "model", text := rule.response }],
         userInput := "", isLoading := false }, Resolution.tier2Hit rule) := by
    unfold startThread
    rw [sendMessage_programmatic_tier2 tier1 tier2 collabAlt _ question rule hq rfl hres]
    exact congrArg
      (fun hist => (({ chatHistory := hist, userInput := "", isLoading := false } : ChatState),
        Resolution.tier2Hit rule)) happ
  exact ⟨h1, h1.trans h2.symm⟩

/-- Witness for C7: seeding the thread with the ISA-allowance question makes
the first shipped Tier 2 rule fire, producing exactly the three-turn history
without any completion call. -/
theorem startThread_resolves_witness :
    ("How much of my ISA allowance have I used this tax year?" : String) ≠ "" ∧
    localHiddenPrompts.find?
        (localRuleMatches
          (jsLowerData "How much of my ISA allowance have I used this tax year?")) = none ∧
    cannedResponses.find?
        (fun r => testRule r "How much of my ISA allowance have I used this tax year?") =
      some (cannedResponses.get ⟨0, by decide⟩) ∧
    startThread localHiddenPrompts cannedResponses (CollabResult.failure "e") "PortalUser1234"
        "How much of my ISA allowance have I used this tax year?" =
      ({ chatHistory := [{ role := "model", text := welcomeMessage "PortalUser1234" },
           { role := "user", text := "How much of my ISA allowance have I used this tax year?" },
           { role := "model", text := (cannedResponses.get ⟨0, by decide⟩).response }],
         userInput := "", isLoading := false },
        Resolution.tier2Hit (cannedResponses.get ⟨0, by decide⟩)) :=
  ⟨by decide, by decide, by decide,
    (startThread_resolves_seeded_question localHiddenPrompts cannedResponses
      (CollabResult.failure "e") (CollabResult.success none) "PortalUser1234"
      "How much of my ISA allowance have I used this tax year?"
      (cannedResponses.get ⟨0, by decide⟩) (by decide) (by decide) (by decide)).1⟩

/-- C8 counterexample: when the completion call returns a success payload
without the expected text field, the appended diagnostic turn reads
`Error: Could not parse API response.` — not the `Could not parse response`
text the claim states. -/
theorem parse_failure_turn_text_differs :
    (sendMessage [] [] (CollabResult.success none)
        { chatHistory := [], userInput := "hi there friend", isLoading := false } none).1.chatHistory =
      [{ role := "user", text := "hi there friend" },
       { role := "model", text := "Error: Could not parse API response." }] ∧
    ("Error: Could not parse API response." : String) ≠ "Could not parse response" :=
  ⟨by decide, by decide⟩

/-- C8 amended: when the pipeline reaches the Completion Collaborator, a
transport/collaborator failure appends exactly one model turn reading
`Error: ` followed by the failure message, and a success payload missing the
expected text field appends exactly one model turn reading
`Error: Could not parse API response.`; both runs end in the completion
resolution with the session state intact. -/
theorem completion_failure_turns
    (tier1 : List LocalCannedRule) (tier2 : List JsonCannedResponse)
    (st : ChatState) (questionToSend : Option String) (message : String)
    (hmsg : messageContentOf st questionToSend ≠ "")
    (hload : st.isLoading = false)
    (hnone : resolve tier1 tier2 (messageContentOf st questionToSend) = MatchOutcome.noRule) :
    (sendMessage tier1 tier2 (CollabResult.failure message) st questionToSend).1.chatHistory =
      historyAfterUserTurn st questionToSend ++
        [{ role := "model", text := "Error: " ++ message }] ∧
    (sendMessage tier1 tier2 (CollabResult.failure message) st questionToSend).2 =
      Resolution.completionCall ∧
    (sendMessage tier1 tier2 (CollabResult.success none) st questionToSend).1.chatHistory =
      historyAfterUserTurn st questionToSend ++
        [{ role := "model", text := "Error: Could not parse API response." }] ∧
    (sendMessage tier1 tier2 (CollabResult.success none) st questionToSend).2 =
      Resolution.completionCall := by
  have hguard : ¬ (messageContentOf st questionToSend = "" ∨ st.isLoading = true) := by
    simp [hmsg, hload]
  refine ⟨?_, ?_, ?_, ?_⟩
  · unfold sendMessage
    rw [if_neg hguard, hnone]
    rfl
  · unfold sendMessage
    rw [if_neg hguard, hnone]
  · unfold sendMessage
    rw [if_neg hguard, hnone]
    rfl
  · unfold sendMessage
    rw [if_neg hguard, hnone]

/-- Witness for C8 amended: with no rules loaded, the input `hi there friend`
reaches the collaborator and a failed call appends the error turn. -/
theorem completion_failure_turns_witness :
    messageContentOf { chatHistory := [], userInput := "hi there friend", isLoading := false }
        none ≠ "" ∧
    resolve [] []
        (messageContentOf { chatHistory := [], userInput := "hi there friend", isLoading := false }
          none) = MatchOutcome.noRule ∧
    (sendMessage [] [] (CollabResult.failure "API error: 500 - Internal")
        { chatHistory := [], userInput := "hi there friend", isLoading := false }
        none).1.chatHistory =
      historyAfterUserTurn { chatHistory := [], userInput := "hi there friend", isLoading := false }
          none ++
        [{ role := "model", text := "Error: " ++ "API error: 500 - Internal" }] :=
  ⟨by decide, by decide,
    (completion_failure_turns [] []
      { chatHistory := [], userInput := "hi there friend", isLoading := false } none
      "API error: 500 - Internal" (by decide) rfl (by decide)).1⟩

/-- C2 counterexample: the Tier 1 matcher accepts an input containing only two
of the three keywords of an `all` list — `transaction` is absent from the
input, yet the rule matches, because Tier 1 folds `all` into a disjunctive
combined list. -/
theorem tier1_all_list_matches_with_missing_keyword :
    charListIncludes (jsLowerData "show Gordon 1234 details") (jsLowerData "gordon") = true ∧
    charListIncludes (jsLowerData "show Gordon 1234 details") (jsLowerData "1234") = true ∧
    charListIncludes (jsLowerData "show Gordon 1234 details") (jsLowerData "transaction") = false ∧
    localRuleMatches (jsLowerData "show Gordon 1234 details")
      { keywords := { all := some ["gordon", "1234", "transaction"] }, response := "R1" } = true :=
  ⟨by decide, by decide, by decide, by decide⟩

/-- C2 amended: the conjunctive reading of `all` holds for the Tier 2 `test`
function — a rule with a non-empty `all` list, no `any` list and no
`alwaysMatch` is satisfied iff every keyword is a case-insensitive substring
of the input — while the Tier 1 matcher flattens the same `all` list into a
disjunction: one contained keyword suffices there. -/
theorem all_keywords_conjunctive_in_tier2_disjunctive_in_tier1
    (allKeywords : List String) (resp resp2 : String) (desc : Option String) (input : String)
    (hall : allKeywords ≠ []) :
    (testRule { keywords := { all := some allKeywords, any := none, alwaysMatch := none },
                response := resp, description := desc } input = true ↔
      ∀ kw ∈ allKeywords, jsLowerData kw <:+: jsLowerData input) ∧
    (localRuleMatches (jsLowerData input)
        { keywords := { all := some allKeywords, any := none }, response := resp2 } = true ↔
      ∃ kw ∈ allKeywords, jsLowerData kw <:+: jsLowerData input) := by
  have hlenAll : 0 < allKeywords.length := List.length_pos.mpr hall
  constructor
  · simp only [testRule, Option.getD_some, Option.getD_none]
    rw [if_neg Bool.false_ne_true]
    by_cases hA : allKeywords.all
        (fun keyword => charListIncludes (jsLowerData input) (jsLowerData keyword)) = true
    · rw [if_pos (by
        rw [Bool.and_eq_true]
        exact ⟨decide_eq_true hlenAll, hA⟩)]
      rw [List.all_eq_true] at hA
      simp only [true_iff]
      exact fun kw hkw => (charListIncludes_infix_iff _ _).mp (hA kw hkw)
    · rw [if_neg (by
        rw [Bool.and_eq_true]
        rintro ⟨-, hA2⟩
        exact hA hA2)]
      rw [if_neg (by simp)]
      simp only [Bool.false_eq_true, false_iff]
      intro hAll
      exact hA (List.all_eq_true.mpr
        (fun kw hkw => (charListIncludes_infix_iff _ _).mpr (hAll kw hkw)))
  · unfold localRuleMatches
    simp only [Option.getD_some, Option.getD_none, List.append_nil, List.any_eq_true]
    constructor
    · rintro ⟨kw, hkw, hinc⟩
      exact ⟨kw, hkw, (charListIncludes_infix_iff _ _).mp hinc⟩
    · rintro ⟨kw, hkw, hinf⟩
      exact ⟨kw, hkw, (charListIncludes_infix_iff _ _).mpr hinf⟩

/-- Witness for C2 amended: the Tier 2 conjunctive characterization at the
three-keyword `all` list and the two-of-three input. -/
theorem all_keywords_semantics_witness :
    (["gordon", "1234", "transaction"] : List String) ≠ [] ∧
    (testRule { keywords := { all := some ["gordon", "1234", "transaction"], any := none,
                              alwaysMatch := none },
                response := "R1", description := none }
        "show Gordon 1234 details" = true ↔
      ∀ kw ∈ (["gordon", "1234", "transaction"] : List String),
        jsLowerData kw <:+: jsLowerData "show Gordon 1234 details") :=
  ⟨by decide,
    (all_keywords_conjunctive_in_tier2_disjunctive_in_tier1
      ["gordon", "1234", "transaction"] "R1" "R1" none "show Gordon 1234 details" (by decide)).1⟩

/-- C9: a rule whose `all` and `any` lists are both empty (or absent) and
whose `alwaysMatch` flag is not set matches no input, in both the Tier 2
`test` function and the Tier 1 combined-keyword check. -/
theorem empty_keyword_rule_never_matches
    (kw : Keywords) (lkw : LocalKeywords) (resp resp2 : String) (desc : Option String)
    (input : String)
    (hall : kw.all.getD [] = []) (hany : kw.any.getD [] = [])
    (halw : kw.alwaysMatch.getD false = false)
    (hlall : lkw.all.getD [] = []) (hlany : lkw.any.getD [] = []) :
    testRule { keywords := kw, response := resp, description := desc } input = false ∧
    localRuleMatches (jsLowerData input) { keywords := lkw, response := resp2 } = false := by
  constructor
  · simp [testRule, hall, hany, halw]
  · simp [localRuleMatches, hlall, hlany]

/-- Witness for C9: the concrete empty-list rule matches neither tier on the
input `hello`. -/
theorem empty_keyword_rule_witness :
    (({ all := some [], any := some [], alwaysMatch := none } : Keywords).all.getD [] = []) ∧
    (({ all := some [], any := some [], alwaysMatch := none } : Keywords).any.getD [] = []) ∧
    (({ all := some [], any := some [], alwaysMatch := none } : Keywords).alwaysMatch.getD false
      = false) ∧
    (({ all := none, any := some [] } : LocalKeywords).all.getD [] = []) ∧
    (({ all := none, any := some [] } : LocalKeywords).any.getD [] = []) ∧
    testRule { keywords := { all := some [], any := some [], alwaysMatch := none },
               response := "r", description := none } "hello" = false ∧
    localRuleMatches (jsLowerData "hello")
      { keywords := { all := none, any := some [] }, response := "r" } = false :=
  ⟨rfl, rfl, rfl, rfl, rfl,
    (empty_keyword_rule_never_matches { all := some [], any := some [], alwaysMatch := none }
      { all := none, any := some [] } "r" "r" none "hello" rfl rfl rfl rfl rfl).1,
    (empty_keyword_rule_never_matches { all := some [], any := some [], alwaysMatch := none }
      { all := none, any := some [] } "r" "r" none "hello" rfl rfl rfl rfl rfl).2⟩

/-- C10: for a Tier 2 rule record with a non-empty `all` list and a non-empty
`any` list (and no `alwaysMatch`), the generated `test` accepts an input iff
every `all` keyword is a case-insensitive substring of it OR at least one
`any` keyword is: the two condition forms combine disjunctively. -/
theorem all_any_combination_is_disjunction
    (allKeywords anyKeywords : List String) (resp : String) (desc : Option String)
    (input : String) (hall : allKeywords ≠ []) (hany : anyKeywords ≠ []) :
    testRule { keywords := { all := some allKeywords, any := some anyKeywords,
                             alwaysMatch := none },
               response := resp, description := desc } input = true ↔
      (∀ kw ∈ allKeywords, jsLowerData kw <:+: jsLowerData input) ∨
      (∃ kw ∈ anyKeywords, jsLowerData kw <:+: jsLowerData input) := by
  have hlenAll : 0 < allKeywords.length := List.length_pos.mpr hall
  have hlenAny : 0 < anyKeywords.length := List.length_pos.mpr hany
  simp only [testRule, Option.getD_some, Option.getD_none]
  rw [if_neg Bool.false_ne_true]
  by_cases hA : allKeywords.all
      (fun keyword => charListIncludes (jsLowerData input) (jsLowerData keyword)) = true
  · rw [if_pos (by
      rw [Bool.and_eq_true]
      exact ⟨decide_eq_true hlenAll, hA⟩)]
    rw [List.all_eq_true] at hA
    simp only [true_iff]
    exact Or.inl (fun kw hkw => (charListIncludes_infix_iff _ _).mp (hA kw hkw))
  · rw [if_neg (by
      rw [Bool.and_eq_true]
      rintro ⟨-, hA2⟩
      exact hA hA2)]
    by_cases hB : anyKeywords.any
        (fun keyword => charListIncludes (jsLowerData input) (jsLowerData keyword)) = true
    · rw [if_pos (by
        rw [Bool.and_eq_true]
        exact ⟨decide_eq_true hlenAny, hB⟩)]
      rw [List.any_eq_true] at hB
      simp only [true_iff]
      obtain ⟨kw, hkw, hinc⟩ := hB
      exact Or.inr ⟨kw, hkw, (charListIncludes_infix_iff _ _).mp hinc⟩
    · rw [if_neg (by
        rw [Bool.and_eq_true]
        rintro ⟨-, hB2⟩
        exact hB hB2)]
      simp only [Bool.false_eq_true, false_iff]
      rintro (hAll | ⟨kw, hkw, hinf⟩)
      · exact hA (List.all_eq_true.mpr
          (fun kw hkw => (charListIncludes_infix_iff _ _).mpr (hAll kw hkw)))
      · exact hB (List.any_eq_true.mpr
          ⟨kw, hkw, (charListIncludes_infix_iff _ _).mpr hinf⟩)

/-- Witness for C10: a rule requiring all of `gordon`/`1234`/`transaction` or
any of `password` accepts `my password` through the `any` side alone. -/
theorem all_any_disjunction_witness :
    (["gordon", "1234", "transaction"] : List String) ≠ [] ∧
    (["password"] : List String) ≠ [] ∧
    (testRule { keywords := { all := some ["gordon", "1234", "transaction"],
                              any := some ["password"], alwaysMatch := none },
                response := "R", description := none }
        "my password" = true ↔
      (∀ kw ∈ (["gordon", "1234", "transaction"] : List String),
        jsLowerData kw <:+: jsLowerData "my password") ∨
      (∃ kw ∈ (["password"] : List String), jsLowerData kw <:+: jsLowerData "my password")) :=
  ⟨by decide, by decide,
    all_any_combination_is_disjunction ["gordon", "1234", "transaction"] ["password"] "R" none
      "my password" (by decide) (by decide)⟩

end AskAnnie
